import Mathlib

/-!
Shallow embedding of the member-card renderer of
`ukparliament-product-frontend-developer-home-exercise`.

The repository contains two near-duplicate implementations of
`initMemberComponent`:

* `src/src/scripts/memberComponent.ts` — the "hide variant": it looks up the
  Card element first, hides it (`display: none`) on every failure path, and
  makes it visible (`display: block`) after a successful population;
* `src/unnamed/part_001` — the "plain variant": it never touches the Card's
  own visibility and looks the Card up only after a successful fetch + parse.

Both are embedded below as pure state-transition functions.  The ambient
browser environment (URL query string, network, current clock, date parsing)
is passed in explicitly as an `Env`; the DOM subtree the renderer may touch is
the `Dom` state; the function result records the new DOM, the console log
events emitted, and how many network requests were issued.

JavaScript peculiarities are modelled faithfully:

* `params.get("id")` yields `null` when the parameter is absent, and the
  guard `!memberId` also treats the empty string as missing (falsiness);
* `if (partyColor)` is a truthiness test, so an empty-string
  `backgroundColour` is skipped just like an absent one;
* `membershipEnd ? new Date(membershipEnd) > new Date() : true` treats an
  empty-string end date as absent (falsiness), and an unparsable non-empty
  date gives `Invalid Date`, whose comparison with any date is `false`
  (NaN comparison) — modelled by `parseDate` returning `Option Int`
  (epoch milliseconds, `none` for `Invalid Date`);
* `response.ok` is `200 ≤ status < 300`;
* field reads on the parsed JSON use `??` fallbacks, so `nameDisplayAs` and
  `thumbnailUrl` are modelled as `Option String` (the JSON body is not
  validated at runtime even though the TS interface declares them required).
-/

namespace MemberCard

/-- An image element: only its `src` attribute is written by the renderer. -/
structure ImgElem where
  src : String
deriving Repr, DecidableEq

/-- A text-bearing element: the renderer writes its `textContent` and its
`style.display`. -/
structure TextElem where
  textContent : String
  display : String
deriving Repr, DecidableEq

/-- The Card subtree rooted at `#mp-card`: its own `style.display` plus the
five addressable children (each `Option`, since `querySelector` may find
nothing and the code silently skips missing children). -/
structure CardElem where
  display : String
  img : Option ImgElem
  party : Option TextElem
  name : Option TextElem
  constituency : Option TextElem
  status : Option TextElem
deriving Repr, DecidableEq

/-- The DOM state the renderer can observe and mutate: the Card (absent when
`getElementById("mp-card")` returns `null`) and the page-global
`--party-color` CSS custom property (absent when never set). -/
structure Dom where
  card : Option CardElem
  partyColor : Option String
deriving Repr, DecidableEq

/-- `latestParty` record of the API response. -/
structure Party where
  name : String
  backgroundColour : String
deriving Repr, DecidableEq

/-- `latestHouseMembership` record of the API response. -/
structure HouseMembership where
  membershipFrom : String
  membershipEndDate : Option String
deriving Repr, DecidableEq

/-- The `Member` record extracted from the response envelope.  `nameDisplayAs`
and `thumbnailUrl` are `Option` because the runtime JSON is unvalidated and
the code guards both reads with `??`. -/
structure Member where
  nameDisplayAs : Option String
  thumbnailUrl : Option String
  latestParty : Option Party
  latestHouseMembership : Option HouseMembership
deriving Repr, DecidableEq

/-- The `{ value: Member }` envelope the API wraps the record in. -/
structure ResponseEnvelope where
  value : Member
deriving Repr, DecidableEq

/-- Outcome of the single `fetch` call, as seen by the renderer:
the host raised an `AbortError`; `fetch` threw some other error; or a
response arrived with an HTTP status and a body whose JSON parse either
fails (`Except.error`, routed to the `catch`) or yields the envelope. -/
inductive NetResult where
  | abortError : NetResult
  | otherError : NetResult
  | response (status : Nat) (body : Except Unit ResponseEnvelope) : NetResult
deriving Repr

/-- A console log event (`console.warn` / `console.error`). -/
inductive LogEvent where
  | warn (msg : String) : LogEvent
  | error (msg : String) : LogEvent
deriving Repr, DecidableEq

/-- The ambient environment of one invocation: the `id` query parameter
(`none` when absent from the URL), the network outcome, the host's date
parsing (`none` models `Invalid Date`), and the current instant in epoch
milliseconds (`new Date()`). -/
structure Env where
  queryId : Option String
  net : NetResult
  parseDate : String → Option Int
  now : Int

/-- The observable result of one invocation: the final DOM state, the console
events in order, and the number of network requests issued. -/
structure RunResult where
  dom : Dom
  logs : List LogEvent
  requests : Nat

/-- `!memberId`: the id is missing when `params.get("id")` returned `null`
or the empty string (JS falsiness). -/
def missingId : Option String → Bool
  | none => true
  | some s => s = ""

/-- `response.ok`: HTTP status in the 2xx range. -/
def responseOk (status : Nat) : Bool :=
  decide (200 ≤ status) && decide (status < 300)

/-- `partyColor.startsWith("#") ? partyColor : "#" + partyColor`. -/
def normalizeColor (c : String) : String :=
  if c.startsWith "#" then c else "#" ++ c

/-- The party-colour step: `const partyColor = member.latestParty?.backgroundColour;
if (partyColor) { ... setProperty("--party-color", formattedColor) }`.
The truthiness check means an absent `latestParty` and an empty-string
colour both leave the existing value untouched. -/
def applyPartyColor (m : Member) (pc : Option String) : Option String :=
  match m.latestParty with
  | none => pc
  | some p =>
    if p.backgroundColour = "" then pc
    else some (normalizeColor p.backgroundColour)

/-- `const isMembershipActive = membershipEnd ? new Date(membershipEnd) > new Date() : true`.
An absent membership record or end date, and an empty-string end date
(falsy), give `true`; a non-empty end date is active iff it parses and its
instant is strictly later than now (`Invalid Date` comparisons are false). -/
def isMembershipActive (pd : String → Option Int) (now : Int) (m : Member) : Bool :=
  match m.latestHouseMembership with
  | none => true
  | some hm =>
    match hm.membershipEndDate with
    | none => true
    | some s =>
      if s = "" then true
      else
        match pd s with
        | none => false
        | some t => decide (t > now)

/-- The five child writes performed after a successful parse: image `src`,
party / name / constituency text with `"N/A"` fallbacks, and the status
label's visibility and text from the membership-active flag.  Each write is
skipped when the child selector found nothing. -/
def renderChildren (pd : String → Option Int) (now : Int) (m : Member)
    (c : CardElem) : CardElem :=
  let active := isMembershipActive pd now m
  { c with
    img := c.img.map fun i => { i with src := m.thumbnailUrl.getD "" }
    party := c.party.map fun e =>
      { e with textContent := (m.latestParty.map Party.name).getD "N/A" }
    name := c.name.map fun e =>
      { e with textContent := m.nameDisplayAs.getD "N/A" }
    constituency := c.constituency.map fun e =>
      { e with textContent :=
          (m.latestHouseMembership.map HouseMembership.membershipFrom).getD "N/A" }
    status := c.status.map fun e =>
      { e with
        display := if active then "none" else "block"
        textContent := if active then "" else "No longer serving" } }

/-- Whether the network step fully succeeded: a response arrived with a 2xx
status and its body parsed to the envelope. -/
def fetchParseOk : NetResult → Bool
  | NetResult.response status (Except.ok _) => responseOk status
  | _ => false

/-- The content of a Card: everything except the Card's own `display`
(presence and state of the five children). -/
def contentOf (c : CardElem) :
    Option ImgElem × Option TextElem × Option TextElem × Option TextElem × Option TextElem :=
  (c.img, c.party, c.name, c.constituency, c.status)

/-- The implementation in `src/unnamed/part_001`: never touches the Card's
own visibility, and looks the Card up only after a successful fetch and
parse. -/
def initMemberComponentPlain (env : Env) (dom : Dom) : RunResult :=
  match env.queryId with
  | none =>
    ⟨dom, [LogEvent.warn "No member ID provided in the query parameters"], 0⟩
  | some s =>
    if s = "" then
      ⟨dom, [LogEvent.warn "No member ID provided in the query parameters"], 0⟩
    else
      match env.net with
      | NetResult.abortError =>
        ⟨dom, [LogEvent.warn "Fetch request was aborted"], 1⟩
      | NetResult.otherError =>
        ⟨dom, [LogEvent.error ("Error fetching data for member ID " ++ s)], 1⟩
      | NetResult.response status body =>
        if responseOk status then
          match body with
          | Except.error _ =>
            ⟨dom, [LogEvent.error ("Error fetching data for member ID " ++ s)], 1⟩
          | Except.ok envl =>
            match dom.card with
            | none =>
              ⟨dom, [LogEvent.warn "Member card element not found"], 1⟩
            | some card =>
              let member := envl.value
              ⟨{ card := some (renderChildren env.parseDate env.now member card)
                 partyColor := applyPartyColor member dom.partyColor }, [], 1⟩
        else
          ⟨dom, [LogEvent.error ("Fetch failed with status: " ++ toString status)], 1⟩

/-- The implementation in `src/src/scripts/memberComponent.ts`: looks up the
Card before anything else, exits early (hiding the Card when present) if the
id or the Card is missing, hides the Card on every failure path, and sets
`display: block` after a successful population. -/
def initMemberComponentHide (env : Env) (dom : Dom) : RunResult :=
  match dom.card with
  | none =>
    ⟨dom, [LogEvent.warn "No member ID provided or card element not found"], 0⟩
  | some card =>
    let hidden : Dom := { dom with card := some { card with display := "none" } }
    match env.queryId with
    | none =>
      ⟨hidden, [LogEvent.warn "No member ID provided or card element not found"], 0⟩
    | some s =>
      if s = "" then
        ⟨hidden, [LogEvent.warn "No member ID provided or card element not found"], 0⟩
      else
        match env.net with
        | NetResult.abortError =>
          ⟨hidden, [LogEvent.warn "Fetch request was aborted"], 1⟩
        | NetResult.otherError =>
          ⟨hidden, [LogEvent.error ("Error fetching data for member ID " ++ s)], 1⟩
        | NetResult.response status body =>
          if responseOk status then
            match body with
            | Except.error _ =>
              ⟨hidden, [LogEvent.error ("Error fetching data for member ID " ++ s)], 1⟩
            | Except.ok envl =>
              let member := envl.value
              let card1 := renderChildren env.parseDate env.now member card
              ⟨{ card := some { card1 with display := "block" }
                 partyColor := applyPartyColor member dom.partyColor }, [], 1⟩
          else
            ⟨hidden, [LogEvent.error ("Fetch failed with status: " ++ toString status)], 1⟩

/-- The end date seen through the optional chain
`member.latestHouseMembership?.membershipEndDate`. -/
def endDateOf (m : Member) : Option String :=
  m.latestHouseMembership.bind HouseMembership.membershipEndDate

/-- Modelled from the spec's words (claim C3): "the membership-active flag
equals true iff latestHouseMembership.membershipEndDate is absent or parses
to an instant strictly later than the current instant" — with no special
case for an empty-string end date.  Kept for comparison with the
code-derived `isMembershipActive`. -/
def specMembershipActive (pd : String → Option Int) (now : Int) (m : Member) : Bool :=
  match endDateOf m with
  | none => true
  | some s =>
    match pd s with
    | none => false
    | some t => decide (t > now)

/-- The spec predicate of `specMembershipActive` amended by the one case the
code forces: an empty-string end date is falsy in
`membershipEnd ? ... : true` and therefore also counts as absent. -/
def specMembershipActiveAmended (pd : String → Option Int) (now : Int) (m : Member) : Bool :=
  match endDateOf m with
  | none => true
  | some s =>
    if s = "" then true
    else
      match pd s with
      | none => false
      | some t => decide (t > now)

/-! ### Concrete fixtures used by witnesses and counterexamples -/

/-- A date parser that rejects everything (`Invalid Date` for all inputs). -/
def pdNone : String → Option Int := fun _ => none

/-- A date parser knowing two dates: `"future"` is strictly after instant 0,
`"past"` strictly before; everything else is `Invalid Date`. -/
def pdSample : String → Option Int := fun s =>
  if s = "future" then some 10 else if s = "past" then some (-10) else none

/-- A Card whose five children are all present, with pre-existing content. -/
def sampleCard : CardElem :=
  { display := "block"
    img := some { src := "old-src" }
    party := some { textContent := "old-party", display := "inline" }
    name := some { textContent := "old-name", display := "inline" }
    constituency := some { textContent := "old-const", display := "inline" }
    status := some { textContent := "old-status", display := "none" } }

/-- A well-formed member (the spec's end-to-end example): party colour
without leading `#`, no end date. -/
def sampleMember : Member :=
  { nameDisplayAs := some "Jane Doe"
    thumbnailUrl := some "http://x/y.jpg"
    latestParty := some { name := "Independent", backgroundColour := "abcdef" }
    latestHouseMembership := some { membershipFrom := "Testshire", membershipEndDate := none } }

/-- A member whose party is present but whose `backgroundColour` is the empty
string (falsy in JS). -/
def memberEmptyColour : Member :=
  { nameDisplayAs := some "A"
    thumbnailUrl := some "u"
    latestParty := some { name := "P", backgroundColour := "" }
    latestHouseMembership := none }

/-- A member with no `latestParty` at all. -/
def memberNoParty : Member :=
  { nameDisplayAs := some "A"
    thumbnailUrl := some "u"
    latestParty := none
    latestHouseMembership := some { membershipFrom := "C", membershipEndDate := some "past" } }

/-- A member whose `membershipEndDate` is the empty string (falsy in JS). -/
def memberEmptyEnd : Member :=
  { nameDisplayAs := some "A"
    thumbnailUrl := some "u"
    latestParty := none
    latestHouseMembership := some { membershipFrom := "C", membershipEndDate := some "" } }

/-- A member whose `membershipEndDate` is a non-empty unparsable string. -/
def memberBadEnd : Member :=
  { nameDisplayAs := some "A"
    thumbnailUrl := some "u"
    latestParty := none
    latestHouseMembership := some { membershipFrom := "C", membershipEndDate := some "garbage" } }

/-- An environment with the given query parameter and network outcome, with
`pdSample` as the date parser and the current instant at 0. -/
def envOf (q : Option String) (net : NetResult) : Env :=
  { queryId := q, net := net, parseDate := pdSample, now := 0 }

/-- A 200 response successfully parsing to the given member. -/
def okResponse (m : Member) : NetResult :=
  NetResult.response 200 (Except.ok { value := m })

/-- A DOM holding the sample Card and no pre-existing `--party-color`. -/
def domWithCard : Dom := { card := some sampleCard, partyColor := none }

/-- A DOM holding the sample Card and a pre-existing `--party-color`. -/
def domOldColor : Dom := { card := some sampleCard, partyColor := some "old" }

/-! ### Branch characterizations

One equation per execution path of each variant; the claim theorems below
are assembled from these. -/

theorem plain_missing_id (env : Env) (dom : Dom)
    (h : missingId env.queryId = true) :
    initMemberComponentPlain env dom =
      ⟨dom, [LogEvent.warn "No member ID provided in the query parameters"], 0⟩ := by
  rcases env with ⟨qid, net, pd, now⟩
  cases qid with
  | none => rfl
  | some s =>
    simp only [missingId, decide_eq_true_eq] at h
    subst h
    simp [initMemberComponentPlain]

theorem plain_abort (env : Env) (dom : Dom) (s : String)
    (hq : env.queryId = some s) (hs : s ≠ "")
    (hn : env.net = NetResult.abortError) :
    initMemberComponentPlain env dom =
      ⟨dom, [LogEvent.warn "Fetch request was aborted"], 1⟩ := by
  rcases env with ⟨qid, net, pd, now⟩
  cases hq
  cases hn
  simp [initMemberComponentPlain, hs]

theorem plain_other (env : Env) (dom : Dom) (s : String)
    (hq : env.queryId = some s) (hs : s ≠ "")
    (hn : env.net = NetResult.otherError) :
    initMemberComponentPlain env dom =
      ⟨dom, [LogEvent.error ("Error fetching data for member ID " ++ s)], 1⟩ := by
  rcases env with ⟨qid, net, pd, now⟩
  cases hq
  cases hn
  simp [initMemberComponentPlain, hs]

theorem plain_bad_status (env : Env) (dom : Dom) (s : String)
    (status : Nat) (body : Except Unit ResponseEnvelope)
    (hq : env.queryId = some s) (hs : s ≠ "")
    (hn : env.net = NetResult.response status body)
    (hst : responseOk status = false) :
    initMemberComponentPlain env dom =
      ⟨dom, [LogEvent.error ("Fetch failed with status: " ++ toString status)], 1⟩ := by
  rcases env with ⟨qid, net, pd, now⟩
  cases hq
  cases hn
  simp [initMemberComponentPlain, hs, hst]

theorem plain_parse_fail (env : Env) (dom : Dom) (s : String)
    (status : Nat) (e : Unit)
    (hq : env.queryId = some s) (hs : s ≠ "")
    (hn : env.net = NetResult.response status (Except.error e))
    (hst : responseOk status = true) :
    initMemberComponentPlain env dom =
      ⟨dom, [LogEvent.error ("Error fetching data for member ID " ++ s)], 1⟩ := by
  rcases env with ⟨qid, net, pd, now⟩
  cases hq
  cases hn
  simp [initMemberComponentPlain, hs, hst]

theorem plain_no_card (env : Env) (dom : Dom) (s : String)
    (status : Nat) (envl : ResponseEnvelope)
    (hq : env.queryId = some s) (hs : s ≠ "")
    (hn : env.net = NetResult.response status (Except.ok envl))
    (hst : responseOk status = true)
    (hc : dom.card = none) :
    initMemberComponentPlain env dom =
      ⟨dom, [LogEvent.warn "Member card element not found"], 1⟩ := by
  rcases env with ⟨qid, net, pd, now⟩
  cases hq
  cases hn
  simp [initMemberComponentPlain, hs, hst, hc]

theorem plain_success (env : Env) (dom : Dom) (s : String)
    (status : Nat) (envl : ResponseEnvelope) (c : CardElem)
    (hq : env.queryId = some s) (hs : s ≠ "")
    (hn : env.net = NetResult.response status (Except.ok envl))
    (hst : responseOk status = true)
    (hc : dom.card = some c) :
    initMemberComponentPlain env dom =
      ⟨{ card := some (renderChildren env.parseDate env.now envl.value c)
         partyColor := applyPartyColor envl.value dom.partyColor }, [], 1⟩ := by
  rcases env with ⟨qid, net, pd, now⟩
  cases hq
  cases hn
  simp [initMemberComponentPlain, hs, hst, hc]

theorem hide_no_card (env : Env) (dom : Dom)
    (hc : dom.card = none) :
    initMemberComponentHide env dom =
      ⟨dom, [LogEvent.warn "No member ID provided or card element not found"], 0⟩ := by
  rcases dom with ⟨card, pc⟩
  cases hc
  rfl

theorem hide_missing_id (env : Env) (dom : Dom) (c : CardElem)
    (hc : dom.card = some c)
    (h : missingId env.queryId = true) :
    initMemberComponentHide env dom =
      ⟨{ dom with card := some { c with display := "none" } },
       [LogEvent.warn "No member ID provided or card element not found"], 0⟩ := by
  rcases env with ⟨qid, net, pd, now⟩
  rcases dom with ⟨card, pc⟩
  cases hc
  cases qid with
  | none => rfl
  | some s =>
    simp only [missingId, decide_eq_true_eq] at h
    subst h
    simp [initMemberComponentHide]

theorem hide_abort (env : Env) (dom : Dom) (c : CardElem) (s : String)
    (hc : dom.card = some c)
    (hq : env.queryId = some s) (hs : s ≠ "")
    (hn : env.net = NetResult.abortError) :
    initMemberComponentHide env dom =
      ⟨{ dom with card := some { c with display := "none" } },
       [LogEvent.warn "Fetch request was aborted"], 1⟩ := by
  rcases env with ⟨qid, net, pd, now⟩
  rcases dom with ⟨card, pc⟩
  cases hc
  cases hq
  cases hn
  simp [initMemberComponentHide, hs]

theorem hide_other (env : Env) (dom : Dom) (c : CardElem) (s : String)
    (hc : dom.card = some c)
    (hq : env.queryId = some s) (hs : s ≠ "")
    (hn : env.net = NetResult.otherError) :
    initMemberComponentHide env dom =
      ⟨{ dom with card := some { c with display := "none" } },
       [LogEvent.error ("Error fetching data for member ID " ++ s)], 1⟩ := by
  rcases env with ⟨qid, net, pd, now⟩
  rcases dom with ⟨card, pc⟩
  cases hc
  cases hq
  cases hn
  simp [initMemberComponentHide, hs]

theorem hide_bad_status (env : Env) (dom : Dom) (c : CardElem) (s : String)
    (status : Nat) (body : Except Unit ResponseEnvelope)
    (hc : dom.card = some c)
    (hq : env.queryId = some s) (hs : s ≠ "")
    (hn : env.net = NetResult.response status body)
    (hst : responseOk status = false) :
    initMemberComponentHide env dom =
      ⟨{ dom with card := some { c with display := "none" } },
       [LogEvent.error ("Fetch failed with status: " ++ toString status)], 1⟩ := by
  rcases env with ⟨qid, net, pd, now⟩
  rcases dom with ⟨card, pc⟩
  cases hc
  cases hq
  cases hn
  simp [initMemberComponentHide, hs, hst]

theorem hide_parse_fail (env : Env) (dom : Dom) (c : CardElem) (s : String)
    (status : Nat) (e : Unit)
    (hc : dom.card = some c)
    (hq : env.queryId = some s) (hs : s ≠ "")
    (hn : env.net = NetResult.response status (Except.error e))
    (hst : responseOk status = true) :
    initMemberComponentHide env dom =
      ⟨{ dom with card := some { c with display := "none" } },
       [LogEvent.error ("Error fetching data for member ID " ++ s)], 1⟩ := by
  rcases env with ⟨qid, net, pd, now⟩
  rcases dom with ⟨card, pc⟩
  cases hc
  cases hq
  cases hn
  simp [initMemberComponentHide, hs, hst]

theorem hide_success (env : Env) (dom : Dom) (c : CardElem) (s : String)
    (status : Nat) (envl : ResponseEnvelope)
    (hc : dom.card = some c)
    (hq : env.queryId = some s) (hs : s ≠ "")
    (hn : env.net = NetResult.response status (Except.ok envl))
    (hst : responseOk status = true) :
    initMemberComponentHide env dom =
      ⟨{ card := some
           { renderChildren env.parseDate env.now envl.value c with display := "block" }
         partyColor := applyPartyColor envl.value dom.partyColor }, [], 1⟩ := by
  rcases env with ⟨qid, net, pd, now⟩
  rcases dom with ⟨card, pc⟩
  cases hc
  cases hq
  cases hn
  simp [initMemberComponentHide, hs, hst]

/-! ### Shared helper lemmas -/

theorem startsWith_hash_append (s : String) : ("#" ++ s).startsWith "#" = true := by
  rcases s with ⟨d⟩
  have t_eq : ("#" ++ String.mk d) = String.mk ('#' :: d) := rfl
  rw [t_eq]
  have hget : (String.mk ('#' :: d)).get ⟨0⟩ = '#' := String.get_of_valid [] ('#' :: d)
  have hget2 : "#".get ⟨0⟩ = '#' := rfl
  have hsize : '#'.utf8Size = 1 := rfl
  have h00 : ({ byteIdx := 0 } : String.Pos) + (0 : String.Pos) = 0 := rfl
  have h01 : ({ byteIdx := 0 } : String.Pos) + { byteIdx := 1 } = { byteIdx := 1 } := rfl
  simp only [String.startsWith, String.toSubstring, Substring.take, Substring.nextn,
    Substring.next, String.endPos_eq, String.utf8Len_cons, hsize, String.Pos.ext_iff,
    String.Pos.add_byteIdx, String.Pos.byteIdx_zero, Nat.zero_add, Nat.add_zero,
    h00, String.next, hget, String.Pos.addChar_byteIdx, Nat.zero_ne_add_one,
    if_false, Nat.sub_zero, h01, BEq.beq, Substring.hasBeq, Substring.beq,
    Substring.bsize, String.substrEq]
  rw [String.substrEq.loop]
  simp only [hget, hget2, String.Pos.addChar_eq, hsize, String.Pos.byteIdx_zero, Nat.zero_add]
  rw [String.substrEq.loop]
  have hget0 : (String.mk ('#' :: d)).get 0 = '#' := hget
  have hep : "#".endPos.byteIdx = 1 := rfl
  simp [hget0, hsize, Nat.le_add_left, hep]

theorem normalizeColor_idem (c : String) :
    normalizeColor (normalizeColor c) = normalizeColor c := by
  by_cases h : c.startsWith "#" = true
  · simp [normalizeColor, h]
  · simp only [normalizeColor, h, if_false, Bool.false_eq_true, if_neg]
    simp [startsWith_hash_append c]

theorem sw_hash_abcdef : "abcdef".startsWith "#" = false := by
  show String.substrEq.loop "abcdef" "#" 0 0 ⟨1⟩ = false
  rw [String.substrEq.loop]
  rfl

theorem sw_hash_00ff00 : "#00ff00".startsWith "#" = true :=
  startsWith_hash_append "00ff00"

theorem not_missing (q : Option String) (h : missingId q = false) :
    ∃ s, q = some s ∧ s ≠ "" := by
  rcases q with _ | s
  · simp [missingId] at h
  · refine ⟨s, rfl, ?_⟩
    simpa [missingId] using h

theorem plain_net_fail (env : Env) (dom : Dom) (s : String)
    (hq : env.queryId = some s) (hs : s ≠ "")
    (hf : fetchParseOk env.net = false) :
    ∃ lg : LogEvent, initMemberComponentPlain env dom = ⟨dom, [lg], 1⟩ := by
  rcases hn : env.net with _ | _ | ⟨status, body⟩
  · exact ⟨_, plain_abort env dom s hq hs hn⟩
  · exact ⟨_, plain_other env dom s hq hs hn⟩
  · cases hok : responseOk status
    · exact ⟨_, plain_bad_status env dom s status body hq hs hn hok⟩
    · rcases body with e | envl
      · exact ⟨_, plain_parse_fail env dom s status e hq hs hn hok⟩
      · rw [hn] at hf
        simp only [fetchParseOk, hok] at hf
        exact absurd hf (by decide)

theorem hide_net_fail (env : Env) (dom : Dom) (c : CardElem) (s : String)
    (hc : dom.card = some c)
    (hq : env.queryId = some s) (hs : s ≠ "")
    (hf : fetchParseOk env.net = false) :
    ∃ lg : LogEvent,
      initMemberComponentHide env dom =
        ⟨{ dom with card := some { c with display := "none" } }, [lg], 1⟩ := by
  rcases hn : env.net with _ | _ | ⟨status, body⟩
  · exact ⟨_, hide_abort env dom c s hc hq hs hn⟩
  · exact ⟨_, hide_other env dom c s hc hq hs hn⟩
  · cases hok : responseOk status
    · exact ⟨_, hide_bad_status env dom c s status body hc hq hs hn hok⟩
    · rcases body with e | envl
      · exact ⟨_, hide_parse_fail env dom c s status e hc hq hs hn hok⟩
      · rw [hn] at hf
        simp only [fetchParseOk, hok] at hf
        exact absurd hf (by decide)

theorem plain_fail_dom (env : Env) (dom : Dom)
    (h : missingId env.queryId = true ∨ fetchParseOk env.net = false) :
    (initMemberComponentPlain env dom).dom = dom := by
  by_cases hm : missingId env.queryId = true
  · rw [plain_missing_id env dom hm]
  · obtain ⟨s, hq, hs⟩ := not_missing env.queryId (by simpa using hm)
    obtain ⟨lg, hrun⟩ := plain_net_fail env dom s hq hs (h.resolve_left hm)
    rw [hrun]

theorem hide_fail_dom (env : Env) (dom : Dom)
    (h : missingId env.queryId = true ∨ fetchParseOk env.net = false) :
    (initMemberComponentHide env dom).dom =
      { dom with card := Option.map (fun c => { c with display := "none" }) dom.card } := by
  rcases dom with ⟨cardOpt, pc⟩
  rcases cardOpt with _ | c
  · rw [hide_no_card env ⟨none, pc⟩ rfl]
    rfl
  · by_cases hm : missingId env.queryId = true
    · rw [hide_missing_id env ⟨some c, pc⟩ c rfl hm]
      rfl
    · obtain ⟨s, hq, hs⟩ := not_missing env.queryId (by simpa using hm)
      obtain ⟨lg, hrun⟩ := hide_net_fail env ⟨some c, pc⟩ c s rfl hq hs (h.resolve_left hm)
      rw [hrun]
      rfl

/-! ### Claims -/

/-- C1: the Card is only populated or shown when a member identifier is
present in the URL and the fetch + JSON parse succeed.  On every other path
(missing id, non-success status, parse failure, abort, other exception) the
plain variant leaves the whole DOM untouched, and the hide variant leaves the
Card's content untouched and at most hides it — it is never partially
populated or newly shown. -/
theorem c1_card_only_populated_on_success (env : Env) (dom : Dom)
    (h : missingId env.queryId = true ∨ fetchParseOk env.net = false) :
    (initMemberComponentPlain env dom).dom = dom ∧
    (initMemberComponentHide env dom).dom =
      { dom with card := Option.map (fun c => { c with display := "none" }) dom.card } ∧
    Option.map contentOf (initMemberComponentHide env dom).dom.card
      = Option.map contentOf dom.card := by
  refine ⟨plain_fail_dom env dom h, hide_fail_dom env dom h, ?_⟩
  rw [hide_fail_dom env dom h]
  rcases dom with ⟨cardOpt, pc⟩
  cases cardOpt <;> rfl

theorem c1_witness :
    (initMemberComponentPlain (envOf (some "172") NetResult.otherError) domOldColor).dom
      = domOldColor ∧
    (initMemberComponentHide (envOf (some "172") NetResult.otherError) domOldColor).dom.card
      = some { sampleCard with display := "none" } :=
  have h := c1_card_only_populated_on_success
    (envOf (some "172") NetResult.otherError) domOldColor (Or.inr (by decide))
  ⟨h.1, by rw [h.2.1]; decide⟩

/-- C2: when the `id` query parameter is absent or empty, no network request
is issued and no Card content element is mutated; the hide variant
additionally sets the Card's display to `none` (when the Card exists) before
returning. -/
theorem c2_missing_id_no_request (env : Env) (dom : Dom)
    (h : missingId env.queryId = true) :
    (initMemberComponentPlain env dom).requests = 0 ∧
    (initMemberComponentPlain env dom).dom = dom ∧
    (initMemberComponentHide env dom).requests = 0 ∧
    Option.map contentOf (initMemberComponentHide env dom).dom.card
      = Option.map contentOf dom.card ∧
    (initMemberComponentHide env dom).dom.card
      = Option.map (fun c => { c with display := "none" }) dom.card := by
  rw [plain_missing_id env dom h]
  rcases dom with ⟨cardOpt, pc⟩
  rcases cardOpt with _ | c
  · rw [hide_no_card env ⟨none, pc⟩ rfl]
    exact ⟨rfl, rfl, rfl, rfl, rfl⟩
  · rw [hide_missing_id env ⟨some c, pc⟩ c rfl h]
    exact ⟨rfl, rfl, rfl, rfl, rfl⟩

theorem c2_witness :
    (initMemberComponentPlain (envOf (some "") (okResponse sampleMember)) domOldColor).requests
      = 0 ∧
    (initMemberComponentPlain (envOf (some "") (okResponse sampleMember)) domOldColor).dom
      = domOldColor ∧
    (initMemberComponentHide (envOf (some "") (okResponse sampleMember)) domOldColor).requests
      = 0 ∧
    (initMemberComponentHide (envOf (some "") (okResponse sampleMember)) domOldColor).dom.card
      = some { sampleCard with display := "none" } :=
  have h := c2_missing_id_no_request
    (envOf (some "") (okResponse sampleMember)) domOldColor (by decide)
  ⟨h.1, h.2.1, h.2.2.1, by rw [h.2.2.2.2]; decide⟩

/-- C4: on a non-2xx HTTP response, the plain variant leaves the DOM (hence
every child's text) unchanged and logs exactly the failure; the
`--party-color` variable is not set in either variant; the hide variant keeps
the Card's content unchanged and additionally hides it, and (when the Card
exists, so the fetch actually ran) logs the same failure. -/
theorem c4_non_2xx_leaves_card_unchanged (env : Env) (dom : Dom) (s : String)
    (status : Nat) (body : Except Unit ResponseEnvelope)
    (hq : env.queryId = some s) (hs : s ≠ "")
    (hn : env.net = NetResult.response status body)
    (hst : responseOk status = false) :
    (initMemberComponentPlain env dom).dom = dom ∧
    (initMemberComponentPlain env dom).logs
      = [LogEvent.error ("Fetch failed with status: " ++ toString status)] ∧
    (initMemberComponentHide env dom).dom.partyColor = dom.partyColor ∧
    Option.map contentOf (initMemberComponentHide env dom).dom.card
      = Option.map contentOf dom.card ∧
    (initMemberComponentHide env dom).dom.card
      = Option.map (fun c => { c with display := "none" }) dom.card ∧
    (dom.card = none ∨
      (initMemberComponentHide env dom).logs
        = [LogEvent.error ("Fetch failed with status: " ++ toString status)]) := by
  rw [plain_bad_status env dom s status body hq hs hn hst]
  rcases dom with ⟨cardOpt, pc⟩
  rcases cardOpt with _ | c
  · rw [hide_no_card env ⟨none, pc⟩ rfl]
    exact ⟨rfl, rfl, rfl, rfl, rfl, Or.inl rfl⟩
  · rw [hide_bad_status env ⟨some c, pc⟩ c s status body rfl hq hs hn hst]
    exact ⟨rfl, rfl, rfl, rfl, rfl, Or.inr rfl⟩

theorem c4_witness :
    (initMemberComponentPlain (envOf (some "172") (NetResult.response 404 (Except.ok { value := sampleMember }))) domOldColor).dom
      = domOldColor ∧
    (initMemberComponentPlain (envOf (some "172") (NetResult.response 404 (Except.ok { value := sampleMember }))) domOldColor).logs
      = [LogEvent.error "Fetch failed with status: 404"] ∧
    (initMemberComponentHide (envOf (some "172") (NetResult.response 404 (Except.ok { value := sampleMember }))) domOldColor).dom.partyColor
      = some "old" :=
  have h := c4_non_2xx_leaves_card_unchanged
    (envOf (some "172") (NetResult.response 404 (Except.ok { value := sampleMember })))
    domOldColor "172" 404 (Except.ok { value := sampleMember })
    rfl (by decide) rfl (by decide)
  ⟨h.1, h.2.1.trans (by decide), h.2.2.1⟩

/-- C7: every failure (abort, other fetch error, non-2xx status, parse
failure) is contained: the run produces a result (the embedding is a total
function — nothing propagates to the caller), exactly one console event is
logged, and exactly one request was made with no retry; the hide variant
behaves the same whenever its Card-present precondition let the fetch run,
and never exceeds one request. -/
theorem c7_failures_contained (env : Env) (dom : Dom) (s : String)
    (hq : env.queryId = some s) (hs : s ≠ "")
    (hf : fetchParseOk env.net = false) :
    (initMemberComponentPlain env dom).requests = 1 ∧
    (initMemberComponentPlain env dom).logs.length = 1 ∧
    (initMemberComponentHide env dom).requests ≤ 1 ∧
    (dom.card = none ∨
      ((initMemberComponentHide env dom).requests = 1 ∧
        (initMemberComponentHide env dom).logs.length = 1)) := by
  obtain ⟨lgp, hp⟩ := plain_net_fail env dom s hq hs hf
  rw [hp]
  rcases dom with ⟨cardOpt, pc⟩
  rcases cardOpt with _ | c
  · rw [hide_no_card env ⟨none, pc⟩ rfl]
    exact ⟨rfl, rfl, by simp, Or.inl rfl⟩
  · obtain ⟨lgh, hh⟩ := hide_net_fail env ⟨some c, pc⟩ c s rfl hq hs hf
    rw [hh]
    exact ⟨rfl, rfl, by simp, Or.inr ⟨rfl, rfl⟩⟩

theorem c7_witness :
    (initMemberComponentPlain (envOf (some "172") (NetResult.response 200 (Except.error ()))) domWithCard).requests = 1 ∧
    (initMemberComponentPlain (envOf (some "172") (NetResult.response 200 (Except.error ()))) domWithCard).logs.length = 1 ∧
    (initMemberComponentHide (envOf (some "172") (NetResult.response 200 (Except.error ()))) domWithCard).requests ≤ 1 :=
  have h := c7_failures_contained
    (envOf (some "172") (NetResult.response 200 (Except.error ()))) domWithCard
    "172" rfl (by decide) (by decide)
  ⟨h.1, h.2.1, h.2.2.1⟩

/-- C10: the abort branch is unreachable from the program itself — the
repository creates an `AbortController` but never calls `abort` on it.  In
the embedding this shows up as: the warning "Fetch request was aborted" can
appear in either variant's log only when the host environment's network
outcome was an `AbortError`. -/
theorem c10_abort_warning_only_from_host (env : Env) (dom : Dom)
    (h : LogEvent.warn "Fetch request was aborted" ∈ (initMemberComponentPlain env dom).logs ∨
      LogEvent.warn "Fetch request was aborted" ∈ (initMemberComponentHide env dom).logs) :
    env.net = NetResult.abortError := by
  by_cases hm : missingId env.queryId = true
  · rw [plain_missing_id env dom hm] at h
    rcases hc : dom.card with _ | c
    · rw [hide_no_card env dom hc] at h
      simp at h
    · rw [hide_missing_id env dom c hc hm] at h
      simp at h
  · obtain ⟨s, hq, hs⟩ := not_missing env.queryId (by simpa using hm)
    rcases hn : env.net with _ | _ | ⟨status, body⟩
    · rfl
    · rw [plain_other env dom s hq hs hn] at h
      rcases hc : dom.card with _ | c
      · rw [hide_no_card env dom hc] at h
        simp at h
      · rw [hide_other env dom c s hc hq hs hn] at h
        simp at h
    · cases hok : responseOk status
      · rw [plain_bad_status env dom s status body hq hs hn hok] at h
        rcases hc : dom.card with _ | c
        · rw [hide_no_card env dom hc] at h
          simp at h
        · rw [hide_bad_status env dom c s status body hc hq hs hn hok] at h
          simp at h
      · rcases body with e | envl
        · rw [plain_parse_fail env dom s status e hq hs hn hok] at h
          rcases hc : dom.card with _ | c
          · rw [hide_no_card env dom hc] at h
            simp at h
          · rw [hide_parse_fail env dom c s status e hc hq hs hn hok] at h
            simp at h
        · rcases hc : dom.card with _ | c
          · rw [plain_no_card env dom s status envl hq hs hn hok hc,
                hide_no_card env dom hc] at h
            simp at h
          · rw [plain_success env dom s status envl c hq hs hn hok hc,
                hide_success env dom c s status envl hc hq hs hn hok] at h
            simp at h

theorem c10_witness :
    (envOf (some "172") NetResult.abortError).net = NetResult.abortError :=
  c10_abort_warning_only_from_host (envOf (some "172") NetResult.abortError) domWithCard
    (Or.inl (by decide))

/-- C6: for a successfully parsed member with `latestParty` entirely absent,
the party label's text becomes the literal `"N/A"` and the `--party-color`
variable is not written, in both variants. -/
theorem c6_absent_party_na (env : Env) (dom : Dom) (s : String)
    (status : Nat) (envl : ResponseEnvelope) (c : CardElem) (e : TextElem)
    (hq : env.queryId = some s) (hs : s ≠ "")
    (hn : env.net = NetResult.response status (Except.ok envl))
    (hst : responseOk status = true)
    (hc : dom.card = some c) (hp : c.party = some e)
    (hm : envl.value.latestParty = none) :
    ((initMemberComponentPlain env dom).dom.card.bind CardElem.party)
      = some { e with textContent := "N/A" } ∧
    (initMemberComponentPlain env dom).dom.partyColor = dom.partyColor ∧
    ((initMemberComponentHide env dom).dom.card.bind CardElem.party)
      = some { e with textContent := "N/A" } ∧
    (initMemberComponentHide env dom).dom.partyColor = dom.partyColor := by
  rw [plain_success env dom s status envl c hq hs hn hst hc,
    hide_success env dom c s status envl hc hq hs hn hst]
  simp [renderChildren, applyPartyColor, hm, hp]

theorem c6_witness :
    ((initMemberComponentPlain (envOf (some "172") (okResponse memberNoParty)) domOldColor).dom.card.bind CardElem.party)
      = some { textContent := "N/A", display := "inline" } ∧
    (initMemberComponentPlain (envOf (some "172") (okResponse memberNoParty)) domOldColor).dom.partyColor
      = some "old" ∧
    ((initMemberComponentHide (envOf (some "172") (okResponse memberNoParty)) domOldColor).dom.card.bind CardElem.party)
      = some { textContent := "N/A", display := "inline" } ∧
    (initMemberComponentHide (envOf (some "172") (okResponse memberNoParty)) domOldColor).dom.partyColor
      = some "old" :=
  c6_absent_party_na (envOf (some "172") (okResponse memberNoParty)) domOldColor
    "172" 200 { value := memberNoParty } sampleCard
    { textContent := "old-party", display := "inline" }
    rfl (by decide) rfl (by decide) rfl rfl rfl

/-- C5 counterexample: the claim fails for a present but empty
`backgroundColour`.  JS truthiness (`if (partyColor)`) skips the empty
string, so no value is written — the pre-existing `--party-color` survives —
whereas the claim requires the write of `normalizeColor "" = "#"`. -/
theorem c5_counterexample :
    memberEmptyColour.latestParty.map Party.backgroundColour = some "" ∧
    (initMemberComponentPlain (envOf (some "172") (okResponse memberEmptyColour)) domOldColor).dom.partyColor
      = some "old" ∧
    normalizeColor "" = "#" := by
  decide

/-- C5 (amended): for every present NON-EMPTY `backgroundColour`, the value
written to `--party-color` is the input with `#` prepended when missing and
unchanged when already present; the normalization is idempotent; and when
`backgroundColour` is absent or empty the existing value is left untouched. -/
theorem c5_amended_color_normalization (m m2 m3 : Member) (p p3 : Party)
    (pc pc2 pc3 : Option String) (col : String)
    (hp : m.latestParty = some p) (hne : p.backgroundColour ≠ "")
    (hm2 : m2.latestParty = none)
    (hp3 : m3.latestParty = some p3) (hb3 : p3.backgroundColour = "") :
    applyPartyColor m pc = some (normalizeColor p.backgroundColour) ∧
    (p.backgroundColour.startsWith "#" = true →
      normalizeColor p.backgroundColour = p.backgroundColour) ∧
    (p.backgroundColour.startsWith "#" = false →
      normalizeColor p.backgroundColour = "#" ++ p.backgroundColour) ∧
    normalizeColor (normalizeColor col) = normalizeColor col ∧
    applyPartyColor m2 pc2 = pc2 ∧
    applyPartyColor m3 pc3 = pc3 := by
  refine ⟨?_, ?_, ?_, normalizeColor_idem col, ?_, ?_⟩
  · simp [applyPartyColor, hp, hne]
  · intro hw
    simp [normalizeColor, hw]
  · intro hw
    simp [normalizeColor, hw]
  · simp [applyPartyColor, hm2]
  · simp [applyPartyColor, hp3, hb3]

theorem c5_witness :
    applyPartyColor sampleMember none = some "#abcdef" ∧
    normalizeColor (normalizeColor "00ff00") = normalizeColor "00ff00" ∧
    applyPartyColor memberNoParty (some "keep") = some "keep" ∧
    applyPartyColor memberEmptyColour (some "keep") = some "keep" :=
  have h := c5_amended_color_normalization sampleMember memberNoParty memberEmptyColour
    { name := "Independent", backgroundColour := "abcdef" }
    { name := "P", backgroundColour := "" }
    none (some "keep") (some "keep") "00ff00"
    rfl (by decide) rfl rfl rfl
  ⟨h.1.trans (congrArg some ((h.2.2.1 sw_hash_abcdef).trans
      (show ("#" ++ "abcdef" : String) = "#abcdef" from rfl))),
    h.2.2.2.1, h.2.2.2.2.1, h.2.2.2.2.2⟩

/-- C3 counterexample: the claim fails for a present but empty
`membershipEndDate`.  The empty string is falsy, so the code short-circuits
`membershipEnd ? ... : true` to active = true, while the claim's condition
("absent or parses to a strictly later instant") is false: the date is
present and does not parse. -/
theorem c3_counterexample :
    endDateOf memberEmptyEnd = some "" ∧
    isMembershipActive pdNone 0 memberEmptyEnd = true ∧
    specMembershipActive pdNone 0 memberEmptyEnd = false :=
  ⟨rfl, rfl, rfl⟩

/-- C3 (amended): the membership-active flag equals true iff
`membershipEndDate` is absent, EMPTY, or parses to an instant strictly later
than the current instant; when active the status label is hidden
(`display: none`) with empty text, when inactive it is shown
(`display: block`) with text "No longer serving". -/
theorem c3_amended_active_flag (pd : String → Option Int) (now : Int)
    (m : Member) (c : CardElem) (e : TextElem)
    (hst : c.status = some e) :
    isMembershipActive pd now m = specMembershipActiveAmended pd now m ∧
    (isMembershipActive pd now m = true →
      (renderChildren pd now m c).status
        = some { e with display := "none", textContent := "" }) ∧
    (isMembershipActive pd now m = false →
      (renderChildren pd now m c).status
        = some { e with display := "block", textContent := "No longer serving" }) := by
  refine ⟨?_, ?_, ?_⟩
  · unfold isMembershipActive specMembershipActiveAmended endDateOf
    rcases m.latestHouseMembership with _ | hm
    · rfl
    · rcases hm with ⟨mf, ed⟩
      rcases ed with _ | s
      · rfl
      · rfl
  · intro ha
    simp [renderChildren, hst, ha]
  · intro ha
    simp [renderChildren, hst, ha]

theorem c3_witness :
    isMembershipActive pdSample 0 sampleMember
      = specMembershipActiveAmended pdSample 0 sampleMember ∧
    (renderChildren pdSample 0 sampleMember sampleCard).status
      = some { textContent := "", display := "none" } :=
  have h := c3_amended_active_flag pdSample 0 sampleMember sampleCard
    { textContent := "old-status", display := "none" } rfl
  ⟨h.1, (h.2.1 rfl).trans (by decide)⟩

/-- C9 counterexample: the claim fails for the empty string, which is a
present date string that does not represent a valid instant, yet the member
is treated as ACTIVE (status hidden, text cleared), because the falsy check
`membershipEnd ?` short-circuits before any date parsing. -/
theorem c9_counterexample :
    endDateOf memberEmptyEnd = some "" ∧
    pdNone "" = none ∧
    (renderChildren pdNone 0 memberEmptyEnd sampleCard).status
      = some { textContent := "", display := "none" } := by
  decide

/-- C9 (amended): for a present, NON-EMPTY, unparsable `membershipEndDate`
the strict date comparison is false, so the member is treated as inactive:
the status label is shown (`display: block`) with text "No longer serving". -/
theorem c9_amended_unparsable_inactive (pd : String → Option Int) (now : Int)
    (m : Member) (s : String) (c : CardElem) (e : TextElem)
    (hd : endDateOf m = some s) (hs : s ≠ "") (hpd : pd s = none)
    (hst : c.status = some e) :
    isMembershipActive pd now m = false ∧
    (renderChildren pd now m c).status
      = some { e with display := "block", textContent := "No longer serving" } := by
  have hact : isMembershipActive pd now m = false := by
    rcases m with ⟨nd, tu, lp, lhm⟩
    rcases lhm with _ | hmm
    · simp [endDateOf] at hd
    · rcases hmm with ⟨mf, ed⟩
      simp only [endDateOf, Option.some_bind] at hd
      subst hd
      simp [isMembershipActive, hs, hpd]
  exact ⟨hact, by simp [renderChildren, hst, hact]⟩

theorem c9_witness :
    isMembershipActive pdSample 0 memberBadEnd = false ∧
    (renderChildren pdSample 0 memberBadEnd sampleCard).status
      = some { textContent := "No longer serving", display := "block" } :=
  have h := c9_amended_unparsable_inactive pdSample 0 memberBadEnd "garbage"
    sampleCard { textContent := "old-status", display := "none" }
    rfl (by decide) (by decide) rfl
  ⟨h.1, h.2.trans (by decide)⟩

/-- C8 counterexample: the claim's ordering is reversed in the code.  In
`src/unnamed/part_001` the Card root is located BEFORE the party-color
write: with the Card absent and `backgroundColour = "abcdef"` present, the
run warns and terminates with `--party-color` never set (the claim requires
it to be set to `"#abcdef"`). -/
theorem c8_counterexample :
    sampleMember.latestParty.map Party.backgroundColour = some "abcdef" ∧
    (initMemberComponentPlain (envOf (some "172") (okResponse sampleMember))
      { card := none, partyColor := none }).dom.partyColor = none ∧
    (initMemberComponentPlain (envOf (some "172") (okResponse sampleMember))
      { card := none, partyColor := none }).logs
      = [LogEvent.warn "Member card element not found"] := by
  decide

/-- C8 (amended): the Card root is located before the party-color write.
When the Card root is absent, `--party-color` is never set even with a
present `backgroundColour`: the plain variant fetches, parses, logs the
"Member card element not found" warning and terminates with the DOM
untouched; the hide variant detects the missing Card before fetching and
issues no request at all. -/
theorem c8_amended_card_located_first (env : Env) (dom : Dom) (s : String)
    (status : Nat) (envl : ResponseEnvelope)
    (hq : env.queryId = some s) (hs : s ≠ "")
    (hn : env.net = NetResult.response status (Except.ok envl))
    (hst : responseOk status = true)
    (hc : dom.card = none) :
    (initMemberComponentPlain env dom).dom = dom ∧
    (initMemberComponentPlain env dom).logs
      = [LogEvent.warn "Member card element not found"] ∧
    (initMemberComponentPlain env dom).requests = 1 ∧
    (initMemberComponentHide env dom).dom = dom ∧
    (initMemberComponentHide env dom).requests = 0 := by
  rw [plain_no_card env dom s status envl hq hs hn hst hc, hide_no_card env dom hc]
  exact ⟨rfl, rfl, rfl, rfl, rfl⟩

theorem c8_witness :
    (initMemberComponentPlain (envOf (some "172") (okResponse sampleMember))
      { card := none, partyColor := some "keep" }).dom
      = { card := none, partyColor := some "keep" } ∧
    (initMemberComponentHide (envOf (some "172") (okResponse sampleMember))
      { card := none, partyColor := some "keep" }).requests = 0 :=
  have h := c8_amended_card_located_first
    (envOf (some "172") (okResponse sampleMember))
    { card := none, partyColor := some "keep" }
    "172" 200 { value := sampleMember }
    rfl (by decide) rfl (by decide) rfl
  ⟨h.1, h.2.2.2.2⟩

end MemberCard
